import Mathlib

/-!
Verification of the raven-js adapter layer against its specification.

Part 1 models the Node adapter bridge from
src/packages/node/src/lib/node.ts: the single-slot capture state
(fields capturing and captured of class SentryNode), the two hook
interceptors interceptRavenSend and interceptRavenBreadcrumb, and the
private capture method.  Events and breadcrumbs are opaque to the
bridge, so they are type parameters E and B.  A bridged operation is
modelled by the finite list of hook firings it triggers synchronously,
plus a flag saying whether it throws after those firings; the side
effects performed on the surrounding Client and on the engine are
collected in an explicit effect list.

Part 2 models the browser backend from
src/packages/browser/src/backend.ts: eventFromException,
eventFromMessage and the DSN check, option resolution and transport
construction of sendEvent.  External collaborators (the stack
computation of tracekit, the frame preparation and plain-object
summarisation of parsers.ts, and the JavaScript string coercion) are
fields of a Collaborators bundle; eventFromStacktrace of parsers.ts is
modelled from the spec.
-/

/-- Artifact stored in the single capture slot of the node bridge: the
field captured of SentryNode has type any and receives either a
SentryEvent or a Breadcrumb (node.ts lines 101 and 116). -/
inductive Artifact (E B : Type) where
  | event (e : E)
  | crumb (b : B)
deriving DecidableEq

/-- CaptureState of the node bridge: the private fields capturing and
captured of SentryNode (node.ts lines 20 and 21).  The JavaScript value
undefined is modelled by none. -/
structure BridgeState (E B : Type) where
  capturing : Bool
  captured : Option (Artifact E B)
deriving DecidableEq

/-- Side effects the hook interceptors perform on the surrounding
Client and on the engine: client.send (node.ts line 107),
client.captureBreadcrumb (line 124) and the original
captureRavenBreadcrumb of the engine (line 115). -/
inductive Effect (E B : Type) where
  | clientSend (e : E)
  | clientCaptureBreadcrumb (b : B)
  | ravenStoreBreadcrumb (b : B)
deriving DecidableEq

/-- One synchronous hook firing triggered by a bridged operation:
either the send hook with an event or the breadcrumb hook with a
breadcrumb. -/
inductive Firing (E B : Type) where
  | send (e : E)
  | crumb (b : B)
deriving DecidableEq

/-- Artifact an individual firing carries. -/
def firingArtifact {E B : Type} : Firing E B → Artifact E B
  | .send e => .event e
  | .crumb b => .crumb b

/-- interceptRavenSend (node.ts lines 96 to 109): when capturing, store
the event into the slot; otherwise forward it to Client.send. -/
def interceptRavenSend {E B : Type} (s : BridgeState E B) (e : E) :
    BridgeState E B × List (Effect E B) :=
  if s.capturing then
    ({ s with captured := some (Artifact.event e) }, [])
  else
    (s, [Effect.clientSend e])

/-- interceptRavenBreadcrumb (node.ts lines 111 to 126): when
capturing, store the breadcrumb via the original engine mechanism and
place it into the slot; otherwise forward it to
Client.captureBreadcrumb. -/
def interceptRavenBreadcrumb {E B : Type} (s : BridgeState E B) (b : B) :
    BridgeState E B × List (Effect E B) :=
  if s.capturing then
    ({ s with captured := some (Artifact.crumb b) },
      [Effect.ravenStoreBreadcrumb b])
  else
    (s, [Effect.clientCaptureBreadcrumb b])

/-- Dispatch one hook firing to the interceptor it reaches. -/
def applyFiring {E B : Type} (s : BridgeState E B) :
    Firing E B → BridgeState E B × List (Effect E B)
  | .send e => interceptRavenSend s e
  | .crumb b => interceptRavenBreadcrumb s b

/-- Run the firings a bridged operation triggers, in order, threading
the bridge state and concatenating the side effects. -/
def runFirings {E B : Type} (s : BridgeState E B) :
    List (Firing E B) → BridgeState E B × List (Effect E B)
  | [] => (s, [])
  | f :: rest =>
    let p := applyFiring s f
    let q := runFirings p.1 rest
    (q.1, p.2 ++ q.2)

/-- Bridged operation passed to capture: the list of hook firings it
triggers synchronously before returning, and whether it throws after
those firings instead of returning. -/
structure Op (E B : Type) where
  firings : List (Firing E B)
  throws : Bool
deriving DecidableEq

/-- Outcome of the capture method: the returned artifact, the thrown
capture failure (the error Could not capture. at node.ts line 138), or
propagation of an exception thrown by the operation itself. -/
inductive CaptureResult (E B : Type) where
  | ok (a : Artifact E B)
  | captureFailure
  | opThrew
deriving DecidableEq

/-- Result of one call to capture: its outcome, the bridge state left
behind, and the side effects performed during the call. -/
structure CaptureOutcome (E B : Type) where
  result : CaptureResult E B
  state : BridgeState E B
  effects : List (Effect E B)
deriving DecidableEq

/-- capture (node.ts lines 128 to 142): clear the slot and raise the
capturing flag, run the callback, then read the slot, clear it and
lower the flag, throwing when the slot was empty.  When the callback
throws, the lines after the callback call do not run, so the state is
left exactly as the firings left it. -/
def capture {E B : Type} (s : BridgeState E B) (op : Op E B) :
    CaptureOutcome E B :=
  let r := runFirings { s with captured := none, capturing := true } op.firings
  if op.throws then
    { result := .opThrew, state := r.1, effects := r.2 }
  else
    match r.1.captured with
    | none =>
      { result := .captureFailure,
        state := { r.1 with captured := none, capturing := false },
        effects := r.2 }
    | some a =>
      { result := .ok a,
        state := { r.1 with captured := none, capturing := false },
        effects := r.2 }

theorem applyFiring_of_capturing {E B : Type} (s : BridgeState E B)
    (f : Firing E B) (h : s.capturing = true) :
    (applyFiring s f).1.capturing = true ∧
    (applyFiring s f).1.captured = some (firingArtifact f) := by
  cases f with
  | send e => simp [applyFiring, interceptRavenSend, firingArtifact, h]
  | crumb b => simp [applyFiring, interceptRavenBreadcrumb, firingArtifact, h]

theorem runFirings_nil {E B : Type} (s : BridgeState E B) :
    runFirings s ([] : List (Firing E B)) = (s, []) := rfl

theorem runFirings_cons_fst {E B : Type} (s : BridgeState E B)
    (f : Firing E B) (rest : List (Firing E B)) :
    (runFirings s (f :: rest)).1 = (runFirings (applyFiring s f).1 rest).1 := by
  simp [runFirings]

/-- While the capturing flag is raised, running a nonempty list of
firings keeps the flag raised and leaves the artifact of the last
firing in the slot. -/
theorem runFirings_of_capturing {E B : Type} (fs : List (Firing E B)) :
    ∀ (s : BridgeState E B) (f : Firing E B), s.capturing = true →
      fs.getLast? = some f →
      (runFirings s fs).1.capturing = true ∧
      (runFirings s fs).1.captured = some (firingArtifact f) := by
  induction fs with
  | nil => intro s f _ hlast; simp at hlast
  | cons g rest ih =>
    intro s f hcap hlast
    cases rest with
    | nil =>
      simp only [List.getLast?_singleton, Option.some.injEq] at hlast
      subst hlast
      rw [runFirings_cons_fst, runFirings_nil]
      exact applyFiring_of_capturing s g hcap
    | cons h t =>
      rw [List.getLast?_cons_cons] at hlast
      rw [runFirings_cons_fst]
      exact ih (applyFiring s g).1 f
        (applyFiring_of_capturing s g hcap).1 hlast

/-- C1 counterexample: starting from the idle bridge state, a bridged
operation that fires the send hook once and then throws leaves the
bridge with capturing still true and the artifact still in the slot,
because the cleanup lines of capture after the callback call do not
run when the callback throws. -/
theorem capture_throwing_op_leaves_slot :
    (capture (⟨false, none⟩ : BridgeState Nat Nat)
      { firings := [Firing.send 7], throws := true }).state =
    { capturing := true, captured := some (Artifact.event 7) } := by decide

/-- C1 (amended): for every bridged call whose operation returns
rather than throws, the call leaves capturing false and the captured
slot cleared; and for every outcome, whenever capture returns an
artifact, that artifact was produced by a firing of the given
operation, so the second of two sequential capture calls never returns
an artifact produced during the first. -/
theorem capture_slot_cleared_and_no_leak {E B : Type}
    (s : BridgeState E B) (op : Op E B) :
    (op.throws = false →
      (capture s op).state.capturing = false ∧
      (capture s op).state.captured = none) ∧
    (∀ a, (capture s op).result = CaptureResult.ok a →
      a ∈ op.firings.map firingArtifact) := by
  constructor
  · intro hth
    constructor <;>
    · simp only [capture, hth, Bool.false_eq_true, if_false]
      cases (runFirings { s with captured := none, capturing := true }
        op.firings).1.captured <;> simp
  · intro a h
    by_cases hth : op.throws = true
    · simp [capture, hth] at h
    · rw [Bool.not_eq_true] at hth
      cases hlast : op.firings.getLast? with
      | none =>
        rw [List.getLast?_eq_none_iff] at hlast
        simp [capture, hth, hlast, runFirings] at h
      | some f =>
        have hcap := runFirings_of_capturing op.firings
          { s with captured := none, capturing := true } f rfl hlast
        simp [capture, hth, hcap.2] at h
        subst h
        exact List.mem_map.mpr ⟨f, List.mem_of_getLast?_eq_some hlast, rfl⟩

/-- C1 witness: a completed call with one send firing leaves a clean
state, and its returned artifact appears among the firings of the
operation. -/
theorem capture_slot_cleared_and_no_leak_witness :
    ((capture (⟨false, none⟩ : BridgeState Nat Nat)
        { firings := [Firing.send 5], throws := false }).state.capturing = false ∧
     (capture (⟨false, none⟩ : BridgeState Nat Nat)
        { firings := [Firing.send 5], throws := false }).state.captured = none) ∧
    Artifact.event 5 ∈
      (({ firings := [Firing.send 5], throws := false } : Op Nat Nat).firings.map
        firingArtifact) :=
  ⟨(capture_slot_cleared_and_no_leak ⟨false, none⟩
      { firings := [Firing.send 5], throws := false }).1 rfl,
   (capture_slot_cleared_and_no_leak (⟨false, none⟩ : BridgeState Nat Nat)
      { firings := [Firing.send 5], throws := false }).2
     (Artifact.event 5) (by decide)⟩

/-- C3: a bridged operation that triggers zero hook firings and
returns leaves the slot empty, so capture fails with the capture
failure error instead of returning a value. -/
theorem capture_empty_fails {E B : Type} (s : BridgeState E B) (op : Op E B)
    (hfi : op.firings = []) (hth : op.throws = false) :
    (capture s op).result = CaptureResult.captureFailure := by
  simp [capture, hfi, hth, runFirings]

/-- C3 witness: the concrete zero-firing operation fails with the
capture failure error. -/
theorem capture_empty_fails_witness :
    (capture (⟨false, none⟩ : BridgeState Nat Nat)
      { firings := [], throws := false }).result =
      CaptureResult.captureFailure :=
  capture_empty_fails ⟨false, none⟩ { firings := [], throws := false } rfl rfl

/-- C4: hook routing policy.  While capturing, a send firing stores
the event into the slot and forwards nothing, and a breadcrumb firing
performs the default engine recording and stores the breadcrumb.
While not capturing, a send firing leaves the bridge state untouched
and forwards the event to Client.send, and a breadcrumb firing leaves
the bridge state untouched and forwards the breadcrumb to
Client.captureBreadcrumb, never storing it in the bridge. -/
theorem hook_routing_policy {E B : Type} (s : BridgeState E B) (e : E) (b : B) :
    (s.capturing = true →
      (interceptRavenSend s e).1.captured = some (Artifact.event e) ∧
      (interceptRavenSend s e).2 = [] ∧
      (interceptRavenBreadcrumb s b).1.captured = some (Artifact.crumb b) ∧
      (interceptRavenBreadcrumb s b).2 = [Effect.ravenStoreBreadcrumb b]) ∧
    (s.capturing = false →
      (interceptRavenSend s e).1 = s ∧
      (interceptRavenSend s e).2 = [Effect.clientSend e] ∧
      (interceptRavenBreadcrumb s b).1 = s ∧
      (interceptRavenBreadcrumb s b).2 = [Effect.clientCaptureBreadcrumb b]) := by
  constructor <;>
  · intro h
    simp [interceptRavenSend, interceptRavenBreadcrumb, h]

/-- C4 witness: both routing branches evaluated at concrete states. -/
theorem hook_routing_policy_witness :
    ((interceptRavenSend (⟨true, none⟩ : BridgeState Nat Nat) 3).1.captured =
        some (Artifact.event 3) ∧
     (interceptRavenBreadcrumb (⟨true, none⟩ : BridgeState Nat Nat) 4).2 =
        [Effect.ravenStoreBreadcrumb 4]) ∧
    ((interceptRavenSend (⟨false, none⟩ : BridgeState Nat Nat) 3).2 =
        [Effect.clientSend 3] ∧
     (interceptRavenBreadcrumb (⟨false, none⟩ : BridgeState Nat Nat) 4).1 =
        (⟨false, none⟩ : BridgeState Nat Nat)) :=
  ⟨⟨((hook_routing_policy (⟨true, none⟩ : BridgeState Nat Nat) 3 4).1 rfl).1,
    ((hook_routing_policy (⟨true, none⟩ : BridgeState Nat Nat) 3 4).1 rfl).2.2.2⟩,
   ⟨((hook_routing_policy (⟨false, none⟩ : BridgeState Nat Nat) 3 4).2 rfl).2.1,
    ((hook_routing_policy (⟨false, none⟩ : BridgeState Nat Nat) 3 4).2 rfl).2.2.1⟩⟩

/-- C10: when a returning bridged operation triggers more than one
hook firing, each later firing overwrites the slot, so capture returns
the artifact of the last firing and raises no error. -/
theorem capture_last_firing_wins {E B : Type} (s : BridgeState E B)
    (op : Op E B) (f : Firing E B) (hth : op.throws = false)
    (_hlen : 1 < op.firings.length) (hlast : op.firings.getLast? = some f) :
    (capture s op).result = CaptureResult.ok (firingArtifact f) := by
  have hcap := runFirings_of_capturing op.firings
    { s with captured := none, capturing := true } f rfl hlast
  simp [capture, hth, hcap.2]

/-- C10 witness: an operation firing the send hook twice returns the
second event. -/
theorem capture_last_firing_wins_witness :
    (capture (⟨false, none⟩ : BridgeState Nat Nat)
      { firings := [Firing.send 1, Firing.send 2], throws := false }).result =
      CaptureResult.ok (Artifact.event 2) :=
  capture_last_firing_wins ⟨false, none⟩
    { firings := [Firing.send 1, Firing.send 2], throws := false }
    (Firing.send 2) rfl (by decide) (by decide)

/-- StackFrame of one trace entry, as in the spec data model: function
name, source location. -/
structure StackFrame where
  func : String
  url : String
  line : Nat
  col : Nat
deriving DecidableEq

/-- Mechanism tag attached to an exception descriptor (backend.ts
lines 135 to 138). -/
structure Mechanism where
  handled : Bool
  type : String
deriving DecidableEq

/-- Exception descriptor of an Event: type name, value, ordered frame
list and mechanism tag, all optional in the wire shape. -/
structure ExceptionDescriptor where
  etype : Option String
  value : Option String
  frames : List StackFrame
  mechanism : Option Mechanism
deriving DecidableEq

/-- SentryEvent as used by the browser backend: the fields that
eventFromException and eventFromMessage produce.  A missing field is
none. -/
structure SentryEvent where
  message : Option String
  exception : Option ExceptionDescriptor
  fingerprint : Option (List String)
  stacktrace : Option (List StackFrame)
deriving DecidableEq

/-- Result shape of computeStackTrace from tracekit, the black-box
stack-computation collaborator: name and message of the error plus the
ordered raw frame list. -/
structure TraceKitStackTrace where
  name : Option String
  message : Option String
  stack : List StackFrame
deriving DecidableEq

/-- Tagged classification of the values eventFromException receives,
mirroring the duck-typed checks isErrorEvent, isDOMError,
isDOMException, isError and isPlainObject of backend.ts lines 94 to
125.  An ErrorEvent carries its error property when that property is
truthy, a DOMError or DOMException carries optional name and message
strings (none models an absent or falsy field), an error object
carries its name and message, a plain object is summarised by its
top-level keys, a string carries itself, and any other primitive is
kept with its string coercion. -/
inductive ExceptionInput where
  | errorEvent (error : Option ExceptionInput)
  | domError (name : Option String) (message : Option String)
  | domException (name : Option String) (message : Option String)
  | errObj (name : Option String) (message : String)
  | plainObject (keys : List String)
  | str (s : String)
  | otherPrim (s : String)

/-- External collaborators of the browser backend that are outside the
given sources: computeStackTrace of tracekit, prepareFramesForEvent
and the plain-object message of getEventOptionsFromPlainObject of
parsers.ts, and the JavaScript String coercion.  The law toStr_str
records that the JavaScript String function is the identity on
strings. -/
structure Collaborators where
  computeStackTrace : ExceptionInput → TraceKitStackTrace
  prepareFramesForEvent : List StackFrame → List StackFrame
  plainObjectMessage : List String → String
  toStr : ExceptionInput → String
  toStr_str : ∀ s, toStr (ExceptionInput.str s) = s

/-- Modelled from the spec: eventFromStacktrace lives in
src/packages/browser/src/parsers.ts, which is not among the given
sources.  The spec says the exception path builds an Event with an
exception descriptor containing the ordered frame list obtained from
the stack computation. -/
def eventFromStacktrace (st : TraceKitStackTrace) : SentryEvent :=
  { message := none
    exception := some
      { etype := st.name, value := st.message,
        frames := st.stack, mechanism := none }
    fingerprint := none
    stacktrace := none }

/-- Spread at backend.ts lines 131 to 140: keep the event, replacing
its exception descriptor by the same descriptor with mechanism set to
handled generic. -/
def withGenericMechanism (event : SentryEvent) : SentryEvent :=
  let base :=
    match event.exception with
    | some d => d
    | none => { etype := none, value := none, frames := [], mechanism := none }
  { event with
    exception := some { base with
      mechanism := some { handled := true, type := "generic" } } }

/-- Synthetic message for a DOMError or DOMException (backend.ts lines
102 to 106): the name field when truthy, else the fallback tag, then a
colon and the message when the message is truthy. -/
def domMessage (fallback : String) (name : Option String)
    (message : Option String) : String :=
  let n :=
    match name with
    | some s => if s = "" then fallback else s
    | none => fallback
  match message with
  | some m => if m = "" then n else n ++ ": " ++ m
  | none => n

/-- eventFromMessage (backend.ts lines 146 to 196): coerce the input
to a string, build a synthetic error carrying that string with its
name nulled, run the stack computation over it, prepare the frames,
and return an Event with the message as its only fingerprint entry,
the message, the prepared frames as stacktrace and no exception
descriptor. -/
def eventFromMessage (C : Collaborators) (message : ExceptionInput) :
    SentryEvent :=
  let m := C.toStr message
  let syntheticException := ExceptionInput.errObj none m
  let stacktrace := C.computeStackTrace syntheticException
  let frames := C.prepareFramesForEvent stacktrace.stack
  { message := some m
    exception := none
    fingerprint := some [m]
    stacktrace := some frames }

/-- eventFromException (backend.ts lines 93 to 141).  An ErrorEvent
with a truthy error property is unwrapped and the inner value goes to
the stack computation without reclassification; a DOMError or
DOMException is turned into a synthetic message string and routed to
eventFromMessage; an error object passes through unchanged; a plain
object is replaced by a fresh error carrying the synthesised key
summary message; anything else is routed to eventFromMessage.  Every
value that reaches the stack computation is wrapped into an Event with
an exception descriptor and the handled generic mechanism. -/
def eventFromException (C : Collaborators) : ExceptionInput → SentryEvent
  | .errorEvent (some inner) =>
    withGenericMechanism (eventFromStacktrace (C.computeStackTrace inner))
  | .errorEvent none => eventFromMessage C (.errorEvent none)
  | .domError name msg =>
    eventFromMessage C (.str (domMessage "DOMError" name msg))
  | .domException name msg =>
    eventFromMessage C (.str (domMessage "DOMException" name msg))
  | .errObj name msg =>
    withGenericMechanism
      (eventFromStacktrace (C.computeStackTrace (.errObj name msg)))
  | .plainObject keys =>
    withGenericMechanism
      (eventFromStacktrace (C.computeStackTrace
        (.errObj (some "Error") (C.plainObjectMessage keys))))
  | .str s => eventFromMessage C (.str s)
  | .otherPrim s => eventFromMessage C (.otherPrim s)

/-- SentryError thrown by the backend (imported from the core
package), carrying its message. -/
structure SentryError where
  message : String
deriving DecidableEq

/-- TransportOptions bag: the resolved DSN plus transport-specific
fields, modelled as an association list. -/
structure TransportOptions where
  dsn : Option String
  extra : List (String × String)
deriving DecidableEq

/-- Default transport options literal built at backend.ts lines 210
and 213: an object holding only the freshly parsed DSN. -/
def defaultTransportOptions (d : String) : TransportOptions :=
  { dsn := some d, extra := [] }

/-- Resolution of the transport options at backend.ts line 210: the
explicit per-call bag when provided, else the default built from the
DSN alone. -/
def resolveTransportOptions (o : Option TransportOptions) (d : String) :
    TransportOptions :=
  match o with
  | some t => t
  | none => defaultTransportOptions d

/-- Which transport implementation sendEvent instantiates: the
caller-supplied constructor, FetchTransport, or XHRTransport. -/
inductive TransportKind where
  | explicitCtor
  | fetchTransport
  | xhrTransport
deriving DecidableEq

/-- Transport instance sendEvent constructs: its kind and the options
object passed to its constructor. -/
structure ConstructedTransport where
  kind : TransportKind
  opts : TransportOptions
deriving DecidableEq

/-- BrowserOptions fields that sendEvent consults: the configured DSN,
whether a custom transport constructor was supplied, and the optional
per-call transport options. -/
structure BrowserOptions where
  dsn : Option String
  transport : Bool
  transportOptions : Option TransportOptions
deriving DecidableEq

/-- sendEvent of the browser backend (backend.ts lines 201 to 219) up
to the construction of the transport: require a DSN, throwing the
SentryError otherwise; resolve the transport options to the explicit
per-call bag when provided, else to the default built from the DSN
alone; construct the explicit transport with a fresh default options
object when a constructor was supplied, else FetchTransport when the
runtime supports fetch, else XHRTransport, the latter two receiving
the resolved options.  The final transport send call is the external
transport collaborator and is not modelled.  DSN parsing is modelled
as the identity on the configured string, since the DSN is externally
validated input. -/
def sendEvent (sf : Bool) (o : BrowserOptions) :
    Except SentryError ConstructedTransport :=
  match o.dsn with
  | none => .error { message := "Cannot sendEvent without a valid DSN" }
  | some d =>
    let transportOptions := resolveTransportOptions o.transportOptions d
    if o.transport then
      .ok { kind := .explicitCtor, opts := defaultTransportOptions d }
    else if sf then
      .ok { kind := .fetchTransport, opts := transportOptions }
    else
      .ok { kind := .xhrTransport, opts := transportOptions }

/-- send of the node adapter (node.ts lines 65 to 75): delegate the
event to the original engine send primitive and resolve or reject
according to its error-first callback, with no precondition of its
own.  The engine outcome is a parameter: none models a callback
invocation without error, some carries the error value. -/
def nodeSend {E : Type} (engineSend : E → Option String) (event : E) :
    Except String Unit :=
  match engineSend event with
  | some err => .error err
  | none => .ok ()

/-- Concrete collaborator bundle used to evaluate the browser backend
on sample inputs: the stack computation returns one fixed frame, frame
preparation is the identity, the plain-object summary joins the keys,
and string coercion returns strings unchanged. -/
def sampleCollaborators : Collaborators :=
  { computeStackTrace := fun _ =>
      { name := none, message := none,
        stack := [{ func := "f", url := "u", line := 1, col := 2 }] }
    prepareFramesForEvent := fun fs => fs
    plainObjectMessage := fun keys => String.intercalate ", " keys
    toStr := fun v =>
      match v with
      | .str s => s
      | _ => "object"
    toStr_str := fun _ => rfl }

/-- C2 counterexample: the plain object with keys code and reason is
converted to a fresh error and routed through the exception path of
eventFromException, so its Event carries an exception descriptor,
against the claim that plain data objects yield an Event with no
exception descriptor. -/
theorem plainObject_event_has_descriptor :
    (eventFromException sampleCollaborators
      (ExceptionInput.plainObject ["code", "reason"])).exception ≠ none := by
  decide

/-- C2 (amended): inputs with no stack capability that reach the
message path, namely DOMError and DOMException shapes, strings and
other primitives, produce an Event with no exception descriptor and
with a message and a stacktrace; a plain data object, by contrast, is
converted to a synthetic error and produces an Event with an exception
descriptor. -/
theorem message_path_no_descriptor (C : Collaborators)
    (a b : Option String) (s t : String) (keys : List String) :
    ((eventFromException C (.domError a b)).exception = none ∧
     (eventFromException C (.domError a b)).message.isSome = true ∧
     (eventFromException C (.domError a b)).stacktrace.isSome = true) ∧
    ((eventFromException C (.domException a b)).exception = none ∧
     (eventFromException C (.domException a b)).message.isSome = true ∧
     (eventFromException C (.domException a b)).stacktrace.isSome = true) ∧
    ((eventFromException C (.str s)).exception = none ∧
     (eventFromException C (.str s)).message = some s ∧
     (eventFromException C (.str s)).stacktrace.isSome = true) ∧
    ((eventFromException C (.otherPrim t)).exception = none ∧
     (eventFromException C (.otherPrim t)).message.isSome = true ∧
     (eventFromException C (.otherPrim t)).stacktrace.isSome = true) ∧
    (eventFromException C (.plainObject keys)).exception.isSome = true := by
  simp [eventFromException, eventFromMessage, withGenericMechanism,
    eventFromStacktrace, C.toStr_str]

/-- C9: for a standard error object, eventFromException yields an
Event whose exception descriptor carries exactly the frame list that
the stack-computation collaborator returned, nonempty by hypothesis,
with the handled generic mechanism. -/
theorem standardError_descriptor (C : Collaborators)
    (n : Option String) (m : String)
    (h : (C.computeStackTrace (.errObj n m)).stack ≠ []) :
    ∃ d, (eventFromException C (.errObj n m)).exception = some d ∧
      d.frames = (C.computeStackTrace (.errObj n m)).stack ∧
      d.frames ≠ [] ∧
      d.mechanism = some { handled := true, type := "generic" } :=
  ⟨_, rfl, rfl, h, rfl⟩

/-- C9 witness: a TypeError-like error object evaluated with the
sample collaborators has a one-frame descriptor with the handled
generic mechanism. -/
theorem standardError_descriptor_witness :
    (sampleCollaborators.computeStackTrace
      (.errObj (some "TypeError") "bad")).stack ≠ [] ∧
    ∃ d, (eventFromException sampleCollaborators
        (.errObj (some "TypeError") "bad")).exception = some d ∧
      d.frames = (sampleCollaborators.computeStackTrace
        (.errObj (some "TypeError") "bad")).stack ∧
      d.frames ≠ [] ∧
      d.mechanism = some { handled := true, type := "generic" } :=
  ⟨by decide,
   standardError_descriptor sampleCollaborators (some "TypeError") "bad"
     (by decide)⟩

/-- C8: eventFromMessage coerces its input to a string m and returns
exactly the Event with fingerprint [m], message m, no exception
descriptor, and a stacktrace prepared from the frames the stack
computation produced for the synthetic error carrying m with its name
suppressed; in particular the input string oops yields fingerprint
[oops] and message oops. -/
theorem eventFromMessage_output (C : Collaborators) (v : ExceptionInput) :
    eventFromMessage C v =
      { message := some (C.toStr v)
        exception := none
        fingerprint := some [C.toStr v]
        stacktrace := some (C.prepareFramesForEvent
          (C.computeStackTrace
            (ExceptionInput.errObj none (C.toStr v))).stack) } ∧
    (eventFromMessage C (.str "oops")).fingerprint = some ["oops"] ∧
    (eventFromMessage C (.str "oops")).message = some "oops" := by
  refine ⟨rfl, ?_, ?_⟩ <;> simp [eventFromMessage, C.toStr_str]

/-- C5 counterexample: the send method of the node adapter consults no
DSN at all; with an engine whose callback reports no error it resolves
successfully, so a call made while no DSN is configured does not fail
with a configuration error. -/
theorem nodeSend_succeeds_without_dsn :
    nodeSend (fun _ : Nat => none) 0 = Except.ok () := rfl

/-- C5 (amended): the browser backend fails with the SentryError about
the missing DSN whenever no DSN is configured, constructing no
transport; the node adapter performs no DSN check in its send method
and resolves whenever the engine callback reports no error. -/
theorem sendEvent_missing_dsn (sf : Bool) (o : BrowserOptions)
    (h : o.dsn = none) {E : Type} (es : E → Option String) (ev : E)
    (hes : es ev = none) :
    sendEvent sf o =
      Except.error { message := "Cannot sendEvent without a valid DSN" } ∧
    nodeSend es ev = Except.ok () := by
  constructor
  · simp [sendEvent, h]
  · simp [nodeSend, hes]

/-- C5 witness: concrete browser options with no DSN fail with the
missing DSN error, and a concrete node engine call resolves. -/
theorem sendEvent_missing_dsn_witness :
    sendEvent true
      { dsn := none, transport := false, transportOptions := none } =
      Except.error { message := "Cannot sendEvent without a valid DSN" } ∧
    nodeSend (fun _ : Nat => none) 1 = Except.ok () :=
  sendEvent_missing_dsn true
    { dsn := none, transport := false, transportOptions := none } rfl
    (fun _ => none) 1 rfl

/-- C6: with a DSN configured, sendEvent succeeds and the kind of
transport it constructs is a pure function of the pair of whether an
explicit constructor was supplied and whether the runtime supports
fetch: the explicit constructor wins, else fetch support selects
FetchTransport, else XHRTransport. -/
theorem transport_selection (sf : Bool) (o : BrowserOptions) (d : String)
    (h : o.dsn = some d) :
    ∃ t, sendEvent sf o = Except.ok t ∧
      t.kind = (if o.transport then TransportKind.explicitCtor
        else if sf then TransportKind.fetchTransport
        else TransportKind.xhrTransport) := by
  cases ht : o.transport with
  | true =>
    exact ⟨{ kind := .explicitCtor, opts := defaultTransportOptions d },
      by simp [sendEvent, h, ht], by simp [ht]⟩
  | false =>
    cases sf with
    | true =>
      exact
        ⟨{ kind := .fetchTransport,
           opts := resolveTransportOptions o.transportOptions d },
         by simp [sendEvent, h, ht], by simp [ht]⟩
    | false =>
      exact
        ⟨{ kind := .xhrTransport,
           opts := resolveTransportOptions o.transportOptions d },
         by simp [sendEvent, h, ht], by simp [ht]⟩

/-- C6 witness: fetch unsupported and no explicit constructor yields
the request-based fallback transport. -/
theorem transport_selection_witness :
    ∃ t, sendEvent false
      { dsn := some "d", transport := false, transportOptions := none } =
        Except.ok t ∧
      t.kind = TransportKind.xhrTransport :=
  transport_selection false
    { dsn := some "d", transport := false, transportOptions := none } "d" rfl

/-- C7 counterexample: with a DSN, an explicit transport constructor
and explicit per-call transport options carrying an extra field, the
explicit constructor receives a fresh object holding only the DSN, not
the resolved per-call options, against the claim that the resolved
options are passed for all three selection outcomes. -/
theorem explicit_ctor_ignores_transportOptions :
    sendEvent true
      { dsn := some "d", transport := true,
        transportOptions :=
          some { dsn := some "d", extra := [("headers", "x")] } } =
      Except.ok
        { kind := TransportKind.explicitCtor,
          opts := { dsn := some "d", extra := [] } } ∧
    ({ dsn := some "d", extra := [] } : TransportOptions) ≠
      { dsn := some "d", extra := [("headers", "x")] } :=
  ⟨rfl, by decide⟩

/-- C7 (amended): with a DSN configured, the fetch and request
transports receive the resolved transport options, namely the explicit
per-call options when provided and otherwise the default built from
the DSN alone, while an explicitly supplied constructor always
receives a fresh default options object built from the DSN alone, even
when per-call options were provided. -/
theorem transport_options_resolution (sf : Bool) (o : BrowserOptions)
    (d : String) (h : o.dsn = some d) :
    (o.transport = false →
      ∃ t, sendEvent sf o = Except.ok t ∧
        t.opts = resolveTransportOptions o.transportOptions d) ∧
    (o.transport = true →
      ∃ t, sendEvent sf o = Except.ok t ∧
        t.opts = defaultTransportOptions d) := by
  constructor
  · intro ht
    cases sf with
    | true =>
      exact
        ⟨{ kind := .fetchTransport,
           opts := resolveTransportOptions o.transportOptions d },
         by simp [sendEvent, h, ht], rfl⟩
    | false =>
      exact
        ⟨{ kind := .xhrTransport,
           opts := resolveTransportOptions o.transportOptions d },
         by simp [sendEvent, h, ht], rfl⟩
  · intro ht
    exact ⟨{ kind := .explicitCtor, opts := defaultTransportOptions d },
      by simp [sendEvent, h, ht], rfl⟩

/-- C7 witness: with explicit per-call options and no explicit
constructor, the constructed transport receives exactly those
options. -/
theorem transport_options_resolution_witness :
    ∃ t, sendEvent true
      { dsn := some "d", transport := false,
        transportOptions :=
          some { dsn := some "d", extra := [("k", "v")] } } = Except.ok t ∧
      t.opts = resolveTransportOptions
        (some { dsn := some "d", extra := [("k", "v")] }) "d" :=
  (transport_options_resolution true
    { dsn := some "d", transport := false,
      transportOptions := some { dsn := some "d", extra := [("k", "v")] } }
    "d" rfl).1 rfl
